import Mathlib

/-!
Verification of the treebit-devsvr log-collection and risk-scoring core.

This file shallowly embeds the two source modules:
  * `backend/collector.py` — Redfish structured-log adapter, IPMI SEL text
    adapter, and the `collect_logs` strategy with its fallback;
  * `backend/app/main.py`  — the `analyze_logs` risk scorer, the mock log
    source and the `/api/analyze` endpoint body.

Python standard-library behaviour that the code relies on (str.strip,
str.split, str.splitlines, str.upper, str.replace, datetime.strptime with
the fixed SEL format, datetime.fromisoformat) is modelled by executable
Lean functions implemented by structural recursion over the character list
of a string, so that every concrete instance computes by `rfl`/`decide`.
Network I/O is modelled by passing the outcome of the HTTP exchange as an
explicit value, and `datetime.utcnow()` by an explicit `now` parameter.
Rational numbers stand in for Python floats: every constant in the scorer
is exactly representable and the claims are about the algorithm's
arithmetic.
-/

/-! ## Python string primitives, modelled structurally -/

/-- The characters Python `str.strip()` removes. -/
def pyIsSpace (c : Char) : Bool :=
  c = ' ' ∨ c = '\t' ∨ c = '\n' ∨ c = '\r' ∨ c = '\x0b' ∨ c = '\x0c'

/-- Split a character list at every occurrence of `c` (Python
`str.split(sep)` with a one-character separator: no merging, empty pieces
kept, `""` yields `[""]`). -/
def splitCharAux (c : Char) : List Char → List Char → List (List Char)
  | [], acc => [acc.reverse]
  | x :: xs, acc =>
    if x = c then acc.reverse :: splitCharAux c xs []
    else splitCharAux c xs (x :: acc)

/-- Python `s.split(c)` for a one-character separator (every separator the
source uses — `"|"`, `"/"`, `":"`, `"-"`, `"+"`, `"."`, `" "` — is one). -/
def pySplitChar (c : Char) (s : String) : List String :=
  (splitCharAux c s.data []).map (fun l => ⟨l⟩)

/-- Python `str.strip()`. -/
def pyStrip (s : String) : String :=
  ⟨((s.data.dropWhile pyIsSpace).reverse.dropWhile pyIsSpace).reverse⟩

/-- Numeric value of a digit list (most significant first). -/
def digitsVal (l : List Char) : Nat :=
  l.foldl (fun acc c => acc * 10 + (c.toNat - 48)) 0

/-- Parse a digit string whose length lies in `[lo, hi]`, as the numeric
fields of `strptime`/`fromisoformat` require. -/
def pyParseNatLen (lo hi : Nat) (s : String) : Option Nat :=
  if 1 ≤ lo ∧ lo ≤ s.data.length ∧ s.data.length ≤ hi ∧ s.data.all Char.isDigit
  then some (digitsVal s.data) else none

/-- Replace every occurrence of the character `c` by the string `r`
(Python `s.replace("Z", "+00:00")` has a one-character pattern). -/
def replaceCharBy (c : Char) (r : List Char) : List Char → List Char
  | [] => []
  | x :: xs => if x = c then r ++ replaceCharBy c r xs else x :: replaceCharBy c r xs

/-- Python `s.replace(c, r)` for a one-character pattern. -/
def pyReplaceChar (c : Char) (r : String) (s : String) : String :=
  ⟨replaceCharBy c r.data s.data⟩

/-- Python `len(s)`. -/
def pyLen (s : String) : Nat := s.data.length

/-- The first `n` characters of `s` (Python `s[:n]`). -/
def pyTake (s : String) (n : Nat) : String := ⟨s.data.take n⟩

/-- All but the first `n` characters of `s` (Python `s[n:]`). -/
def pyDrop (s : String) (n : Nat) : String := ⟨s.data.drop n⟩

/-- Python `str.upper()` (ASCII, which is all the scorer compares). -/
def pyUpper (s : String) : String := ⟨s.data.map Char.toUpper⟩

/-- Model of Python `str.splitlines()` for `\n`-separated text: no entry is
produced for a trailing newline, and empty input yields no lines. -/
def pySplitlines (s : String) : List String :=
  if s = "" then []
  else
    let l := pySplitChar '\n' s
    if l.getLast? = some "" then l.dropLast else l

/-! ## datetime models -/

/-- Model of a Python naive/aware `datetime` at second granularity
(microseconds, which never influence the verified claims, are dropped).
`tzOffsetMinutes = none` models a naive datetime. -/
structure PyDateTime where
  year : Nat
  month : Nat
  day : Nat
  hour : Nat
  minute : Nat
  second : Nat
  tzOffsetMinutes : Option Int := none
deriving Repr, DecidableEq

/-- Model of `datetime.strptime(s, "%m/%d/%Y %H:%M:%S")` (collector.py's
fixed SEL format): month/day/hour/minute/second take 1–2 digits, the year 4,
with the calendar validation simplified to per-field range checks. Returns
`none` where CPython raises `ValueError`. -/
def pyStrptimeSel (s : String) : Option PyDateTime :=
  match pySplitChar ' ' s with
  | [ds, tsr] =>
    match pySplitChar '/' ds, pySplitChar ':' tsr with
    | [ms, dds, ys], [hs, mis, ss] => do
      let mo ← pyParseNatLen 1 2 ms
      let d ← pyParseNatLen 1 2 dds
      let y ← pyParseNatLen 4 4 ys
      let h ← pyParseNatLen 1 2 hs
      let mi ← pyParseNatLen 1 2 mis
      let sec ← pyParseNatLen 1 2 ss
      if 1 ≤ mo ∧ mo ≤ 12 ∧ 1 ≤ d ∧ d ≤ 31 ∧ 1 ≤ y ∧ h ≤ 23 ∧ mi ≤ 59 ∧ sec ≤ 59
      then some ⟨y, mo, d, h, mi, sec, none⟩ else none
    | _, _ => none
  | _ => none

/-- Parse the `YYYY-MM-DD` date part of an ISO-8601 string. -/
def parseIsoDate (s : String) : Option (Nat × Nat × Nat) :=
  match pySplitChar '-' s with
  | [ys, ms, ds] => do
    let y ← pyParseNatLen 4 4 ys
    let mo ← pyParseNatLen 2 2 ms
    let d ← pyParseNatLen 2 2 ds
    if 1 ≤ y ∧ 1 ≤ mo ∧ mo ≤ 12 ∧ 1 ≤ d ∧ d ≤ 31 then some (y, mo, d) else none
  | _ => none

/-- Parse the `HH[:MM[:SS]]` core of an ISO-8601 time (a fractional-seconds
suffix `.digits` is accepted and dropped). -/
def parseIsoTimeCore (s : String) : Option (Nat × Nat × Nat) := do
  let hms ← match pySplitChar '.' s with
    | [t] => some t
    | [t, frac] =>
      if frac.data.length > 0 ∧ frac.data.all Char.isDigit then some t else none
    | _ => none
  let (h, mi, sec) ← match pySplitChar ':' hms with
    | [hs] => do let h ← pyParseNatLen 2 2 hs; some (h, 0, 0)
    | [hs, mis] => do
      let h ← pyParseNatLen 2 2 hs; let mi ← pyParseNatLen 2 2 mis; some (h, mi, 0)
    | [hs, mis, ss] => do
      let h ← pyParseNatLen 2 2 hs; let mi ← pyParseNatLen 2 2 mis
      let sec ← pyParseNatLen 2 2 ss; some (h, mi, sec)
    | _ => none
  if h ≤ 23 ∧ mi ≤ 59 ∧ sec ≤ 59 then some (h, mi, sec) else none

/-- Parse an ISO-8601 time-of-day with an optional `+HH:MM` UTC offset (the
only offset shape the code produces, via `replace("Z", "+00:00")`). -/
def parseIsoTime (s : String) : Option (Nat × Nat × Nat × Option Int) :=
  match pySplitChar '+' s with
  | [t] => do let (h, mi, sec) ← parseIsoTimeCore t; some (h, mi, sec, none)
  | [t, off] =>
    match pySplitChar ':' off with
    | [ohs, oms] => do
      let (h, mi, sec) ← parseIsoTimeCore t
      let oh ← pyParseNatLen 2 2 ohs
      let om ← pyParseNatLen 2 2 oms
      if oh ≤ 23 ∧ om ≤ 59 then some (h, mi, sec, some ((oh * 60 + om : Nat) : Int))
      else none
    | _ => none
  | _ => none

/-- Model of `datetime.fromisoformat`: the first 10 characters hold the date,
character 10 (when present) is an arbitrary separator, the rest holds the
time with an optional offset; `none` where CPython raises `ValueError`. -/
def pyFromIsoformat (s : String) : Option PyDateTime :=
  if pyLen s = 10 then do
    let (y, mo, d) ← parseIsoDate s
    some ⟨y, mo, d, 0, 0, 0, none⟩
  else if pyLen s ≥ 12 then do
    let (y, mo, d) ← parseIsoDate (pyTake s 10)
    let (h, mi, sec, off) ← parseIsoTime (pyDrop s 11)
    some ⟨y, mo, d, h, mi, sec, off⟩
  else none

/-! ## collector.py -/

/-- The normalized log schema of `collector.normalize_log` (a dict with
fixed keys in the source, a record here). -/
structure NormalizedLog where
  timestamp : PyDateTime
  host : String
  vendor : String
  service : String
  severity : String
  message : String
deriving Repr, DecidableEq

/-- `collector.normalize_log`: shapes its keyword arguments into the
normalized record. -/
def normalize_log (timestamp : PyDateTime) (host vendor service severity message : String) :
    NormalizedLog :=
  ⟨timestamp, host, vendor, service, severity, message⟩

/-- A raw Redfish log entry: the dict fields that `fetch_redfish_logs`
reads via `e.get(...)`, each absent (`none`) or a string. -/
structure RedfishEntry where
  created : Option String := none
  dateTime : Option String := none
  message : Option String := none
  oemRecordFormat : Option String := none
  severity : Option String := none
  entryType : Option String := none
  sensorType : Option String := none
  originOfCondition : Option String := none
deriving Repr, DecidableEq

/-- Python truthiness of an optional string: `None` and `""` are falsy. -/
def pyTruthy (o : Option String) : Option String :=
  match o with
  | some s => if s = "" then none else some s
  | none => none

/-- `a or b` on optional strings, as in `e.get("Created") or e.get("DateTime")`. -/
def pyOrOpt (a b : Option String) : Option String :=
  match pyTruthy a with
  | some s => some s
  | none => b

/-- `opt or dflt` where the right operand is a (truthy) string, as in
`host or f"{vendor}-bmc"`. -/
def pyOrStr (a : Option String) (dflt : String) : String :=
  match pyTruthy a with
  | some s => s
  | none => dflt

/-- Model of Python `str(e)` on the raw entry dict (the `message` fallback of
last resort); its exact text is never relied on by the code or the spec. -/
def entryStr (e : RedfishEntry) : String :=
  String.intercalate ", "
    (([e.created, e.dateTime, e.message, e.oemRecordFormat,
       e.severity, e.entryType, e.sensorType, e.originOfCondition].filterMap id))

/-- Outcome of the two authenticated GETs in `fetch_redfish_logs`:
a network failure (`httpx.RequestError`), a non-success status (which
`raise_for_status` turns into `httpx.HTTPStatusError`), or a JSON body whose
`"Members"` list (defaulted to `[]` by `data.get("Members", [])`) is given. -/
inductive RedfishFetch where
  | connectError : RedfishFetch
  | statusError (code : Nat) : RedfishFetch
  | ok (members : List RedfishEntry) : RedfishFetch
deriving Repr, DecidableEq

/-- The per-entry normalization loop body of `fetch_redfish_logs`:
field-priority lookups with `or`, then `datetime.fromisoformat` on the
timestamp string with `"Z"` replaced by `"+00:00"`.  `nowIso` is the string
`datetime.utcnow().isoformat()` substituted when both timestamp fields are
falsy.  An unparsable timestamp string is the `ValueError` the loop raises. -/
def normalizeRedfishEntry (e : RedfishEntry) (bmc_host vendor nowIso : String) :
    Except String NormalizedLog :=
  let ts := pyOrStr (pyOrOpt e.created e.dateTime) nowIso
  let msg := pyOrStr (pyOrOpt e.message e.oemRecordFormat) (entryStr e)
  let sev := pyOrStr (pyOrOpt e.severity e.entryType) "INFO"
  let comp := pyOrStr (pyOrOpt e.sensorType e.originOfCondition) "log"
  match pyFromIsoformat (pyReplaceChar 'Z' "+00:00" ts) with
  | some dt => Except.ok (normalize_log dt bmc_host vendor comp sev msg)
  | none => Except.error "ValueError: invalid isoformat string"

/-- The `for e in entries` loop of `fetch_redfish_logs`: normalize entries
in order, raising at the first failing entry as the Python loop does. -/
def normalizeEntries (bmc_host vendor nowIso : String) :
    List RedfishEntry → Except String (List NormalizedLog)
  | [] => Except.ok []
  | e :: es =>
    match normalizeRedfishEntry e bmc_host vendor nowIso with
    | Except.error err => Except.error err
    | Except.ok l =>
      match normalizeEntries bmc_host vendor nowIso es with
      | Except.error err => Except.error err
      | Except.ok ls => Except.ok (l :: ls)

/-- `collector.fetch_redfish_logs`: given the outcome of the HTTP exchange,
either raises (`Except.error`) or normalizes every member entry.  The
credentials only feed the HTTP client and are absorbed into `resp`. -/
def fetch_redfish_logs (resp : RedfishFetch) (bmc_host vendor nowIso : String) :
    Except String (List NormalizedLog) :=
  match resp with
  | RedfishFetch.connectError => Except.error "httpx.RequestError"
  | RedfishFetch.statusError code => Except.error ("httpx.HTTPStatusError " ++ toString code)
  | RedfishFetch.ok members => normalizeEntries bmc_host vendor nowIso members

/-- One iteration of the `parse_ipmi_sel` loop: strip the pipe-delimited
fields, skip the line when there are fewer than five, otherwise take
`_, date, time, severity, message = parts[:5]` and parse the timestamp,
substituting `now` (= `datetime.utcnow()`) when `strptime` raises. -/
def parseSelLine (host vendor service : String) (now : PyDateTime) (line : String) :
    List NormalizedLog :=
  let parts := (pySplitChar '|' line).map pyStrip
  if parts.length < 5 then []
  else
    let date_str := parts.getD 1 ""
    let time_str := parts.getD 2 ""
    let sev := parts.getD 3 ""
    let msg := parts.getD 4 ""
    let ts := (pyStrptimeSel (date_str ++ " " ++ time_str)).getD now
    [normalize_log ts host vendor service sev msg]

/-- The line loop of `parse_ipmi_sel`, accumulating per-line results. -/
def parseSelLines (host vendor service : String) (now : PyDateTime) :
    List String → List NormalizedLog
  | [] => []
  | l :: ls => parseSelLine host vendor service now l ++ parseSelLines host vendor service now ls

/-- `collector.parse_ipmi_sel`: parse `ipmitool sel elist`-style text into
normalized logs (`service` defaults to `"ipmi"` at the call sites). -/
def parse_ipmi_sel (sel_output host vendor service : String) (now : PyDateTime) :
    List NormalizedLog :=
  parseSelLines host vendor service now (pySplitlines sel_output)

/-- The fixed placeholder SEL line substituted by `collect_logs` in place of
a real `ipmitool` invocation. -/
def selMock : String := "1 | 09/13/2024 | 12:34:56 | Critical | PSU1 input lost"

/-- `collector.collect_logs`: try Redfish when preferred; on any exception
fall back to parsing the placeholder SEL line.  Total by construction, as
the source's `except Exception: pass` makes it. -/
def collect_logs (prefer_redfish : Bool) (resp : RedfishFetch)
    (bmc_host vendor nowIso : String) (now : PyDateTime) : List NormalizedLog :=
  match prefer_redfish, fetch_redfish_logs resp bmc_host vendor nowIso with
  | true, Except.ok logs => logs
  | _, _ => parse_ipmi_sel selMock bmc_host vendor "ipmi" now

/-! ## app/main.py -/

/-- `main.LogEntry` (pydantic model): timestamp, severity, message, with
optional component/host/vendor. -/
structure LogEntry where
  timestamp : PyDateTime
  severity : String
  message : String
  component : Option String := none
  host : Option String := none
  vendor : Option String := none
deriving Repr, DecidableEq

/-- `main.Analysis`: the scorer's result.  `risk_score` is ℚ, standing in
for the Python float (every scorer constant is exactly representable). -/
structure Analysis where
  risk_score : ℚ
  summary : String
  insights : List String
deriving Repr, DecidableEq

/-- The severities `analyze_logs` counts as critical, uppercased. -/
def critSeverities : List String := ["ERROR", "CRITICAL", "FATAL"]

/-- `main.analyze_logs`: empty input is scored 0 with fixed texts; otherwise
count critical/error and warning events, clamp `0.2·crit + 0.05·warn` at 1,
and bucket the summary at the 0.3 threshold. -/
def analyze_logs (logs : List LogEntry) : Analysis :=
  if logs.isEmpty then ⟨0, "No data", ["No logs to analyze"]⟩
  else
    let crit := logs.countP (fun l => critSeverities.contains (pyUpper l.severity))
    let warn := logs.countP (fun l => pyUpper l.severity == "WARN")
    let score : ℚ := min ((1 / 5 : ℚ) * crit + (1 / 20 : ℚ) * warn) 1
    let summary := if score < (3 / 10 : ℚ) then "Stable" else "Investigate power/cooling"
    ⟨score, summary, [toString crit ++ " critical/error", toString warn ++ " warnings"]⟩

/-- `main.mock_logs`: five fixed demo entries (severities INFO, WARN, ERROR,
INFO, WARN) for a vendor, hosted at `host or f"{vendor}-bmc"`. -/
def mock_logs (vendor : String) (host : Option String) (now : PyDateTime) : List LogEntry :=
  let source := pyOrStr host (vendor ++ "-bmc")
  [ ⟨now, "INFO", "[" ++ vendor ++ "] system OK", some "BMC", some source, some vendor⟩,
    ⟨now, "WARN", "Fan 2 speed above threshold", some "Cooling", some source, some vendor⟩,
    ⟨now, "ERROR", "PSU input unstable", some "Power", some source, some vendor⟩,
    ⟨now, "INFO", "Periodic telemetry sync", some "Agent", some source, some vendor⟩,
    ⟨now, "WARN", "Disk SMART pre-fail flagged", some "Storage", some source, some vendor⟩ ]

/-- The `Literal[...]` vendor tag of `main.AnalyzeRequest`. -/
inductive VendorChoice where
  | hpe | dell | lenovo | supermicro | other | all
deriving Repr, DecidableEq

/-- The string a `VendorChoice` denotes. -/
def VendorChoice.str : VendorChoice → String
  | VendorChoice.hpe => "hpe"
  | VendorChoice.dell => "dell"
  | VendorChoice.lenovo => "lenovo"
  | VendorChoice.supermicro => "supermicro"
  | VendorChoice.other => "other"
  | VendorChoice.all => "all"

/-- `main.AnalyzeRequest`: vendor tag plus optional BMC host. -/
structure AnalyzeRequest where
  vendor : VendorChoice := VendorChoice.all
  bmc_host : Option String := none
deriving Repr, DecidableEq

/-- The vendor list the analyze endpoint iterates over: the five known
vendors for `"all"`, else the singleton. -/
def vendorsFor (v : VendorChoice) : List String :=
  match v with
  | VendorChoice.all => ["hpe", "dell", "lenovo", "supermicro", "other"]
  | v => [v.str]

/-- Python `str(x)` on an optional string field in an f-string: `None`
renders as `"None"`. -/
def optStr (o : Option String) : String :=
  match o with
  | some s => s
  | none => "None"

/-- The evidence f-string of the analyze endpoint:
`f"[{l.vendor}@{l.host}] {l.severity}: {l.message}"`. -/
def evidenceStr (l : LogEntry) : String :=
  "[" ++ optStr l.vendor ++ "@" ++ optStr l.host ++ "] " ++ l.severity ++ ": " ++ l.message

/-- The `all_logs` accumulation of `analyze_endpoint`: mock logs per vendor,
hosted at `payload.bmc_host or f"{v}-demo"`, concatenated in vendor order. -/
def endpointLogs (payload : AnalyzeRequest) (now : PyDateTime) : List LogEntry :=
  (vendorsFor payload.vendor).foldr
    (fun v acc => mock_logs v (some (pyOrStr payload.bmc_host (v ++ "-demo"))) now ++ acc) []

/-- The JSON dict returned by `analyze_endpoint`. -/
structure AnalyzeResponse where
  vendor : String
  risk_score : ℚ
  summary : String
  insights : List String
  evidence : List String
  count : Nat
deriving Repr, DecidableEq

/-- `main.analyze_endpoint` (`POST /api/analyze`): score the accumulated
mock logs and present up to 10 evidence strings plus the total count. -/
def analyze_endpoint (payload : AnalyzeRequest) (now : PyDateTime) : AnalyzeResponse :=
  let all_logs := endpointLogs payload now
  let result := analyze_logs all_logs
  ⟨payload.vendor.str, result.risk_score, result.summary, result.insights,
    (all_logs.take 10).map evidenceStr, all_logs.length⟩

/-! ## Claim theorems -/

/-- C1: `collect_logs` raises no error to its caller: whenever the
structured Redfish adapter raises any exception, `collect_logs` falls back
to parsing the fixed placeholder SEL line with the text SEL adapter and
returns that sequence instead of propagating the failure.  (Totality is the
Lean return type `List NormalizedLog`, faithful to `except Exception`.) -/
theorem collect_logs_absorbs_redfish_failure
    (resp : RedfishFetch) (bmc_host vendor nowIso : String) (now : PyDateTime) (e : String)
    (h : fetch_redfish_logs resp bmc_host vendor nowIso = Except.error e) :
    collect_logs true resp bmc_host vendor nowIso now
      = parse_ipmi_sel selMock bmc_host vendor "ipmi" now := by
  unfold collect_logs
  rw [h]

/-- Witness for C1 at a concrete connectivity failure. -/
theorem collect_logs_absorbs_redfish_failure_witness :
    collect_logs true RedfishFetch.connectError "bmc1" "hpe" "t" ⟨2024, 1, 1, 0, 0, 0, none⟩
      = parse_ipmi_sel selMock "bmc1" "hpe" "ipmi" ⟨2024, 1, 1, 0, 0, 0, none⟩ :=
  collect_logs_absorbs_redfish_failure RedfishFetch.connectError "bmc1" "hpe" "t"
    ⟨2024, 1, 1, 0, 0, 0, none⟩ "httpx.RequestError" rfl

/-- C2: for every sequence of events, the risk score returned by
`analyze_logs` lies in the closed interval `[0, 1]`. -/
theorem analyze_logs_risk_score_in_unit_interval (logs : List LogEntry) :
    0 ≤ (analyze_logs logs).risk_score ∧ (analyze_logs logs).risk_score ≤ 1 := by
  unfold analyze_logs
  by_cases h : logs.isEmpty
  · simp [h]
  · rw [if_neg (by simp [h])]
    exact ⟨le_min (by positivity) zero_le_one, min_le_right _ _⟩

/-- C3: the empty sequence is scored 0 with summary "No data" and the single
insight "No logs to analyze". -/
theorem analyze_logs_empty :
    analyze_logs [] = ⟨0, "No data", ["No logs to analyze"]⟩ := rfl

/-- C4: a 5-event input with severities INFO, WARN, ERROR, INFO, WARN gives
critical_count 1 and warn_count 2, risk score `min(0.2·1 + 0.05·2, 1) = 0.3`,
and — the boundary not being strict — summary "Investigate power/cooling". -/
theorem analyze_logs_scenario_boundary (logs : List LogEntry)
    (h : logs.map (fun l => l.severity) = ["INFO", "WARN", "ERROR", "INFO", "WARN"]) :
    analyze_logs logs
      = ⟨3 / 10, "Investigate power/cooling", ["1 critical/error", "2 warnings"]⟩ := by
  cases logs with
  | nil => simp at h
  | cons a t1 => cases t1 with
  | nil => simp at h
  | cons b t2 => cases t2 with
  | nil => simp at h
  | cons c t3 => cases t3 with
  | nil => simp at h
  | cons d t4 => cases t4 with
  | nil => simp at h
  | cons e t5 => cases t5 with
  | cons f t6 => simp at h
  | nil =>
    simp only [List.map_cons, List.map_nil, List.cons.injEq, and_true] at h
    obtain ⟨h1, h2, h3, h4, h5⟩ := h
    have c1 : critSeverities.contains (pyUpper "INFO") = false := rfl
    have c2 : critSeverities.contains (pyUpper "WARN") = false := rfl
    have c3 : critSeverities.contains (pyUpper "ERROR") = true := rfl
    have w1 : (pyUpper "INFO" == "WARN") = false := rfl
    have w2 : (pyUpper "WARN" == "WARN") = true := rfl
    have w3 : (pyUpper "ERROR" == "WARN") = false := rfl
    simp only [analyze_logs, List.isEmpty_cons, List.countP_cons, List.countP_nil,
      h1, h2, h3, h4, h5, c1, c2, c3, w1, w2, w3, Bool.false_eq_true, if_false, if_true,
      Analysis.mk.injEq]
    norm_num [min_def]
    exact ⟨rfl, rfl⟩

/-- Witness for C4 at a concrete 5-event input. -/
theorem analyze_logs_scenario_boundary_witness :
    analyze_logs
      [ ⟨⟨2024, 1, 1, 0, 0, 0, none⟩, "INFO", "m1", none, none, none⟩,
        ⟨⟨2024, 1, 1, 0, 0, 0, none⟩, "WARN", "m2", none, none, none⟩,
        ⟨⟨2024, 1, 1, 0, 0, 0, none⟩, "ERROR", "m3", none, none, none⟩,
        ⟨⟨2024, 1, 1, 0, 0, 0, none⟩, "INFO", "m4", none, none, none⟩,
        ⟨⟨2024, 1, 1, 0, 0, 0, none⟩, "WARN", "m5", none, none, none⟩ ]
      = ⟨3 / 10, "Investigate power/cooling", ["1 critical/error", "2 warnings"]⟩ :=
  analyze_logs_scenario_boundary _ rfl

/-- C6: `analyze_logs` is deterministic (it is a function), and permuting
the input changes neither the numeric risk score nor the two insight count
strings. -/
theorem analyze_logs_perm_invariant (l1 l2 : List LogEntry) (hp : l1.Perm l2) :
    (analyze_logs l1).risk_score = (analyze_logs l2).risk_score ∧
    (analyze_logs l1).insights = (analyze_logs l2).insights := by
  have hemp : l1.isEmpty = l2.isEmpty := by
    cases l1 <;> cases l2 <;> simp_all [List.isEmpty]
  have hc := hp.countP_eq (fun l => critSeverities.contains (pyUpper l.severity))
  have hw := hp.countP_eq (fun l => pyUpper l.severity == "WARN")
  unfold analyze_logs
  rw [hemp, hc, hw]
  exact ⟨rfl, rfl⟩

/-- Witness for C6 at a concrete transposition. -/
theorem analyze_logs_perm_invariant_witness :
    (analyze_logs
      [ ⟨⟨2024, 1, 1, 0, 0, 0, none⟩, "ERROR", "m1", none, none, none⟩,
        ⟨⟨2024, 1, 1, 0, 0, 0, none⟩, "WARN", "m2", none, none, none⟩ ]).risk_score
    = (analyze_logs
      [ ⟨⟨2024, 1, 1, 0, 0, 0, none⟩, "WARN", "m2", none, none, none⟩,
        ⟨⟨2024, 1, 1, 0, 0, 0, none⟩, "ERROR", "m1", none, none, none⟩ ]).risk_score ∧
    (analyze_logs
      [ ⟨⟨2024, 1, 1, 0, 0, 0, none⟩, "ERROR", "m1", none, none, none⟩,
        ⟨⟨2024, 1, 1, 0, 0, 0, none⟩, "WARN", "m2", none, none, none⟩ ]).insights
    = (analyze_logs
      [ ⟨⟨2024, 1, 1, 0, 0, 0, none⟩, "WARN", "m2", none, none, none⟩,
        ⟨⟨2024, 1, 1, 0, 0, 0, none⟩, "ERROR", "m1", none, none, none⟩ ]).insights :=
  analyze_logs_perm_invariant _ _ (List.Perm.swap _ _ _)

/-- Each SEL line contributes one event when it has at least five stripped
pipe-delimited fields and none otherwise. -/
theorem parseSelLine_length (host vendor service : String) (now : PyDateTime) (line : String) :
    (parseSelLine host vendor service now line).length
      = if 5 ≤ ((pySplitChar '|' line).map pyStrip).length then 1 else 0 := by
  simp only [parseSelLine]
  by_cases h : ((pySplitChar '|' line).map pyStrip).length < 5
  · rw [if_pos h, if_neg (by omega)]; rfl
  · rw [if_neg h, if_pos (by omega)]; rfl

/-- The SEL loop produces exactly one event per line with at least five
fields. -/
theorem parseSelLines_length (host vendor service : String) (now : PyDateTime)
    (lines : List String) :
    (parseSelLines host vendor service now lines).length
      = (lines.filter (fun l => 5 ≤ ((pySplitChar '|' l).map pyStrip).length)).length := by
  induction lines with
  | nil => rfl
  | cons l ls ih =>
    rw [parseSelLines, List.length_append, parseSelLine_length, ih, List.filter_cons]
    simp only [List.length_map, decide_eq_true_eq]
    by_cases h : 5 ≤ (pySplitChar '|' l).length
    · simp [h, Nat.add_comm]
    · simp [h]

/-- `getD` below the cut is unaffected by `take`. -/
theorem getD_take_of_lt {α : Type} (d : α) (l : List α) (n i : Nat) (h : i < n) :
    (l.take n).getD i d = l.getD i d := by
  simp [List.getD, List.getElem?_take_of_lt h]

/-- C7: the text SEL adapter skips every line with fewer than five
pipe-delimited fields; a line whose date/time fields fail to parse in the
fixed `MM/DD/YYYY HH:MM:SS` format keeps its event with the current
collection time substituted; and the placeholder line yields exactly one
Event with severity "Critical", message "PSU1 input lost" and timestamp
2024-09-13 12:34:56. -/
theorem parse_ipmi_sel_spec :
    (∀ text host vendor service now,
        (parse_ipmi_sel text host vendor service now).length
          = ((pySplitlines text).filter
              (fun l => 5 ≤ ((pySplitChar '|' l).map pyStrip).length)).length) ∧
    (∀ line host vendor service now,
        pySplitlines line = [line] →
        5 ≤ ((pySplitChar '|' line).map pyStrip).length →
        pyStrptimeSel ((((pySplitChar '|' line).map pyStrip).getD 1 "") ++ " " ++
          (((pySplitChar '|' line).map pyStrip).getD 2 "")) = none →
        parse_ipmi_sel line host vendor service now
          = [⟨now, host, vendor, service, ((pySplitChar '|' line).map pyStrip).getD 3 "",
              ((pySplitChar '|' line).map pyStrip).getD 4 ""⟩]) ∧
    (∀ host vendor now,
        parse_ipmi_sel "1 | 09/13/2024 | 12:34:56 | Critical | PSU1 input lost"
            host vendor "ipmi" now
          = [⟨⟨2024, 9, 13, 12, 34, 56, none⟩, host, vendor, "ipmi", "Critical",
              "PSU1 input lost"⟩]) := by
  refine ⟨?_, ?_, ?_⟩
  · intro text host vendor service now
    exact parseSelLines_length host vendor service now (pySplitlines text)
  · intro line host vendor service now h0 h5 hfail
    simp only [parse_ipmi_sel, h0, parseSelLines, List.append_nil, parseSelLine]
    rw [if_neg (by omega)]
    rw [hfail]
    rfl
  · intro host vendor now
    rfl

/-- Witness for C7: a line with an unparsable date keeps its event with the
collection time substituted. -/
theorem parse_ipmi_sel_spec_witness :
    parse_ipmi_sel "2 | baddate | 99x | Warning | fan stuck" "h" "v" "ipmi"
        ⟨2024, 2, 2, 3, 4, 5, none⟩
      = [⟨⟨2024, 2, 2, 3, 4, 5, none⟩, "h", "v", "ipmi", "Warning", "fan stuck"⟩] :=
  parse_ipmi_sel_spec.2.1 "2 | baddate | 99x | Warning | fan stuck" "h" "v" "ipmi"
    ⟨2024, 2, 2, 3, 4, 5, none⟩ rfl (by decide) rfl

/-- C10: the text SEL adapter reads only the first five pipe-delimited
fields of a line — two single-line inputs agreeing on their first five
stripped fields parse identically — so a SEL message containing `"|"` is
truncated to its first pipe-delimited segment ("PSU1" below). -/
theorem parse_ipmi_sel_uses_first_five_fields :
    (∀ l1 l2 host vendor service now,
        pySplitlines l1 = [l1] → pySplitlines l2 = [l2] →
        ((pySplitChar '|' l1).map pyStrip).take 5 = ((pySplitChar '|' l2).map pyStrip).take 5 →
        5 ≤ ((pySplitChar '|' l1).map pyStrip).length →
        5 ≤ ((pySplitChar '|' l2).map pyStrip).length →
        parse_ipmi_sel l1 host vendor service now = parse_ipmi_sel l2 host vendor service now) ∧
    (∀ host vendor now,
        parse_ipmi_sel "1 | 09/13/2024 | 12:34:56 | Critical | PSU1 | input lost"
            host vendor "ipmi" now
          = [⟨⟨2024, 9, 13, 12, 34, 56, none⟩, host, vendor, "ipmi", "Critical", "PSU1"⟩]) := by
  refine ⟨?_, ?_⟩
  · intro l1 l2 host vendor service now h01 h02 htake h51 h52
    have key : ∀ i, i < 5 →
        ((pySplitChar '|' l1).map pyStrip).getD i ""
          = ((pySplitChar '|' l2).map pyStrip).getD i "" := by
      intro i hi
      rw [← getD_take_of_lt "" ((pySplitChar '|' l1).map pyStrip) 5 i hi,
        ← getD_take_of_lt "" ((pySplitChar '|' l2).map pyStrip) 5 i hi, htake]
    simp only [parse_ipmi_sel, h01, h02, parseSelLines, List.append_nil, parseSelLine]
    rw [if_neg (by omega), if_neg (by omega)]
    rw [key 1 (by omega), key 2 (by omega), key 3 (by omega), key 4 (by omega)]
  · intro host vendor now
    rfl

/-- Witness for C10: appending a sixth field does not change the parse. -/
theorem parse_ipmi_sel_uses_first_five_fields_witness :
    parse_ipmi_sel "1 | 09/13/2024 | 12:34:56 | Critical | PSU1 input lost"
        "h" "v" "ipmi" ⟨2024, 1, 1, 0, 0, 0, none⟩
      = parse_ipmi_sel "1 | 09/13/2024 | 12:34:56 | Critical | PSU1 input lost | extra"
        "h" "v" "ipmi" ⟨2024, 1, 1, 0, 0, 0, none⟩ :=
  parse_ipmi_sel_uses_first_five_fields.1
    "1 | 09/13/2024 | 12:34:56 | Critical | PSU1 input lost"
    "1 | 09/13/2024 | 12:34:56 | Critical | PSU1 input lost | extra"
    "h" "v" "ipmi" ⟨2024, 1, 1, 0, 0, 0, none⟩ rfl rfl rfl (by decide) (by decide)

/-- C5 counterexample: an entry whose `"Created"` timestamp string is
present but unparsable makes the structured adapter raise a `ValueError`
instead of defaulting the timestamp to the collection time. -/
theorem fetch_redfish_raises_on_unparsable_timestamp :
    fetch_redfish_logs (RedfishFetch.ok [{ created := some "not-a-date" }]) "host1" "hpe"
        "2024-01-01T00:00:00"
      = Except.error "ValueError: invalid isoformat string" := rfl

/-- C5 amended: the structured adapter defaults an entry's timestamp to the
current collection time only when both `"Created"` and `"DateTime"` are
missing or empty; a present-but-unparsable timestamp raises instead (the
error is absorbed later by `collect_logs`' fallback, not in the adapter). -/
theorem fetch_redfish_defaults_timestamp_only_when_absent
    (e : RedfishEntry) (bmc_host vendor nowIso : String) (dt : PyDateTime)
    (hc : pyTruthy e.created = none) (hd : pyTruthy e.dateTime = none)
    (hparse : pyFromIsoformat (pyReplaceChar 'Z' "+00:00" nowIso) = some dt) :
    (fetch_redfish_logs (RedfishFetch.ok [e]) bmc_host vendor nowIso).map
        (List.map NormalizedLog.timestamp)
      = Except.ok [dt] := by
  have hts : pyOrStr (pyOrOpt e.created e.dateTime) nowIso = nowIso := by
    simp [pyOrStr, pyOrOpt, hc, hd]
  simp only [fetch_redfish_logs, normalizeEntries, normalizeRedfishEntry, hts, hparse]
  rfl

/-- Witness for the amended C5 at an entry with no timestamp fields. -/
theorem fetch_redfish_defaults_timestamp_witness :
    (fetch_redfish_logs (RedfishFetch.ok [{ severity := some "Warning" }]) "h1" "dell"
        "2024-05-05T01:02:03").map (List.map NormalizedLog.timestamp)
      = Except.ok [⟨2024, 5, 5, 1, 2, 3, none⟩] :=
  fetch_redfish_defaults_timestamp_only_when_absent { severity := some "Warning" }
    "h1" "dell" "2024-05-05T01:02:03" ⟨2024, 5, 5, 1, 2, 3, none⟩ rfl rfl rfl

/-- C8: the analyze endpoint emits at most 10 evidence strings, each of the
exact form `"[<vendor>@<host>] <severity>: <message>"`, taken from the
collected events in input order (the first 10), together with the total
event count. -/
theorem analyze_endpoint_evidence_spec (payload : AnalyzeRequest) (now : PyDateTime) :
    (analyze_endpoint payload now).evidence
      = ((endpointLogs payload now).take 10).map
          (fun l => "[" ++ optStr l.vendor ++ "@" ++ optStr l.host ++ "] " ++ l.severity
            ++ ": " ++ l.message) ∧
    (analyze_endpoint payload now).evidence.length ≤ 10 ∧
    (analyze_endpoint payload now).count = (endpointLogs payload now).length := by
  refine ⟨rfl, ?_, rfl⟩
  show (((endpointLogs payload now).take 10).map evidenceStr).length ≤ 10
  rw [List.length_map, List.length_take]
  exact min_le_left _ _

/-- C9: whenever `collect_logs` takes the fallback path (the structured
adapter raised, or Redfish is not preferred), it returns exactly one Event
with severity "Critical", message "PSU1 input lost", service "ipmi",
timestamp 2024-09-13 12:34:56, and the caller's host and vendor; scoring
that single event contributes exactly 0.2 to the risk score. -/
theorem collect_logs_fallback_single_event (prefer : Bool) (resp : RedfishFetch)
    (bmc_host vendor nowIso : String) (now : PyDateTime)
    (h : prefer = false ∨
      ∃ err, fetch_redfish_logs resp bmc_host vendor nowIso = Except.error err) :
    collect_logs prefer resp bmc_host vendor nowIso now
      = [⟨⟨2024, 9, 13, 12, 34, 56, none⟩, bmc_host, vendor, "ipmi", "Critical",
          "PSU1 input lost"⟩] ∧
    (analyze_logs [⟨⟨2024, 9, 13, 12, 34, 56, none⟩, "Critical", "PSU1 input lost",
        some "ipmi", some bmc_host, some vendor⟩]).risk_score = 1 / 5 := by
  constructor
  · rcases h with h | ⟨err, herr⟩
    · subst h
      cases hf : fetch_redfish_logs resp bmc_host vendor nowIso <;>
        simp [collect_logs, hf] <;> rfl
    · cases prefer <;> simp [collect_logs, herr] <;> rfl
  · have cc : critSeverities.contains (pyUpper "Critical") = true := rfl
    have ww : (pyUpper "Critical" == "WARN") = false := rfl
    simp only [analyze_logs, List.isEmpty_cons, List.countP_cons, List.countP_nil,
      cc, ww, Bool.false_eq_true, if_false, if_true]
    norm_num [min_def]

/-- Witness for C9 at a concrete HTTP status failure. -/
theorem collect_logs_fallback_single_event_witness :
    collect_logs true (RedfishFetch.statusError 401) "bmc9" "dell" "t"
        ⟨2024, 1, 1, 0, 0, 0, none⟩
      = [⟨⟨2024, 9, 13, 12, 34, 56, none⟩, "bmc9", "dell", "ipmi", "Critical",
          "PSU1 input lost"⟩] ∧
    (analyze_logs [⟨⟨2024, 9, 13, 12, 34, 56, none⟩, "Critical", "PSU1 input lost",
        some "ipmi", some "bmc9", some "dell"⟩]).risk_score = 1 / 5 :=
  collect_logs_fallback_single_event true (RedfishFetch.statusError 401) "bmc9" "dell" "t"
    ⟨2024, 1, 1, 0, 0, 0, none⟩ (Or.inr ⟨"httpx.HTTPStatusError 401", rfl⟩)
